import Mathlib

/-!
Verification of the timing subsystem of the esp-hal hardware-abstraction
layer: the RTC clock-calibration arithmetic (`rtc_cntl.rs`), the watchdog
register write-protection protocol (`rtc_cntl.rs`, `timer.rs`) and the
generic counter-timer driver (`timer.rs`).

The Rust source is shallowly embedded: machine integers (`u32`, `u64`) are
natural numbers with explicit reduction modulo `2^32` / `2^64` at the
operations where the Rust program performs a cast or where wrapping can
occur; register blocks become explicit state structures; the hardware
counting unit of the calibration engine is an oracle parameter (`Option ℕ`:
`some raw` when the hardware reports readiness with raw count `raw`, `none`
when the timeout condition is observed).
-/

namespace EspHal

/-- Reduction modulo 2^64, the semantics of a wrapping `u64` operation. -/
def wrap64 (n : ℕ) : ℕ := n % 2 ^ 64

/-- Wrapping `u64` subtraction `a - b` for `a b < 2^64`. -/
def sub64 (a b : ℕ) : ℕ := (a + (2 ^ 64 - b % 2 ^ 64)) % 2 ^ 64

/-- `RtcClock::CAL_FRACT` (rtc_cntl.rs:114): number of fractional bits of the
Q13.19 fixed-point calibration results. -/
def CAL_FRACT : ℕ := 19

/-- `RtcCalSel` (rtc_cntl.rs:73): clock source to be calibrated.
`rtcCalInternalOsc` exists only on the non-ESP32 chip families. -/
inductive RtcCalSel
  | rtcCalRtcMux
  | rtcCal8mD256
  | rtcCal32kXtal
  | rtcCalInternalOsc
  deriving DecidableEq

/-- `RtcSlowClock` (rtc_cntl.rs:43): the selectable RTC SLOW_CLK sources. -/
inductive RtcSlowClock
  | rtcSlowClockRtc
  | rtcSlowClock32kXtal
  | rtcSlock8mD256
  deriving DecidableEq

/-- The target-resolution step at the head of `RtcClock::calibrate_internal`
(rtc_cntl.rs:247-256).  On the ESP32 family the `cfg` block is compiled out
and the requested target is used as-is; on the other families `RtcCalRtcMux`
is resolved to the concrete backing clock of the currently selected
SLOW_CLK and `RtcCalInternalOsc` is mapped to `RtcCalRtcMux`. -/
def resolveCalClk (esp32 : Bool) (slow : RtcSlowClock) (calClk : RtcCalSel) :
    RtcCalSel :=
  if esp32 then calClk
  else
    match calClk with
    | .rtcCalRtcMux =>
      match slow with
      | .rtcSlowClock32kXtal => .rtcCal32kXtal
      | .rtcSlock8mD256 => .rtcCal8mD256
      | _ => calClk
    | .rtcCalInternalOsc => .rtcCalRtcMux
    | _ => calClk

/-- The two auxiliary clock-enable bits of `RTC_CNTL.clk_conf` that
`calibrate_internal` manipulates: `dig_xtal32k_en` and `dig_clk8m_d256_en`. -/
structure ClkConf where
  dig_xtal32k_en : Bool
  dig_clk8m_d256_en : Bool
  deriving DecidableEq

/-- `RtcClock::calibrate_internal` (rtc_cntl.rs:242-384), restricted to its
effect on the `clk_conf` auxiliary clock-enable bits and its returned raw
cycle count.  The TIMG0 calibration registers and the busy-wait loop are
abstracted into the oracle `ready`: `some v` models the hardware setting
`rtc_cali_rdy` with `rtc_cali_value = v`, `none` models the timeout exit of
the loop, which breaks with value `0` (rtc_cntl.rs:347-368).  The source
saves `dig_xtal32k_en` before the measurement (rtc_cntl.rs:261), sets it for
a 32k-XTAL target if it was clear (rtc_cntl.rs:263-267), sets
`dig_clk8m_d256_en` for an 8M/256 target (rtc_cntl.rs:269-273), and after
the loop writes the saved `dig_xtal32k_en` back (rtc_cntl.rs:373-375) and
unconditionally clears `dig_clk8m_d256_en` for an 8M/256 target
(rtc_cntl.rs:377-381). -/
def calibrate_internal (esp32 : Bool) (slow : RtcSlowClock) (calClk : RtcCalSel)
    (ready : Option ℕ) (s : ClkConf) : ClkConf × ℕ :=
  let calClk := resolveCalClk esp32 slow calClk
  let dig_32k_xtal_enabled := s.dig_xtal32k_en
  let s :=
    if calClk = .rtcCal32kXtal ∧ ¬dig_32k_xtal_enabled then
      { s with dig_xtal32k_en := true }
    else s
  let s :=
    if calClk = .rtcCal8mD256 then { s with dig_clk8m_d256_en := true } else s
  let cal_val :=
    match ready with
    | some v => v
    | none => 0
  let s := { s with dig_xtal32k_en := dig_32k_xtal_enabled }
  let s :=
    if calClk = .rtcCal8mD256 then { s with dig_clk8m_d256_en := false } else s
  (s, cal_val)

/-- The arithmetic of `RtcClock::get_calibration_ratio` (rtc_cntl.rs:387-392)
as a function of the raw cycle count `xtal_cycles` returned by
`calibrate_internal` (a `u32` widened to `u64`) and the window
`slowclk_cycles`:
`((xtal_cycles << CAL_FRACT) / slowclk_cycles) & u32::MAX`. -/
def get_calibration_ratio (xtal_cycles slowclk_cycles : ℕ) : ℕ :=
  (wrap64 (xtal_cycles <<< CAL_FRACT) / slowclk_cycles) % 2 ^ 32

/-- The arithmetic of `RtcClock::calibrate` (rtc_cntl.rs:401-408) as a
function of the crystal frequency in MHz (read by the source via
`RtcClock::get_xtal_freq().mhz()`), the raw cycle count from
`calibrate_internal`, and the window:
`(((xtal_cycles << CAL_FRACT) + divider / 2 - 1) / divider) & u32::MAX`
with `divider = xtal_freq_mhz * slowclk_cycles`, all in `u64`. -/
def calibrate (xtal_freq_mhz xtal_cycles slowclk_cycles : ℕ) : ℕ :=
  let divider := wrap64 (xtal_freq_mhz * slowclk_cycles)
  let period_64 :=
    sub64 (wrap64 (wrap64 (xtal_cycles <<< CAL_FRACT) + divider / 2)) 1 /
      divider
  period_64 % 2 ^ 32

/-- Modelled from the spec: the conversion the spec sentence attributes to
`calibrate` — "rounding (`+ divisor/2` before integer division)", i.e.
`((raw << 19) + divisor / 2) / divisor` truncated to 32 bits.  Written for
comparison with the source-derived `calibrate` above. -/
def calibrate_specRounding (xtal_freq_mhz xtal_cycles slowclk_cycles : ℕ) :
    ℕ :=
  let divider := xtal_freq_mhz * slowclk_cycles
  (((xtal_cycles <<< CAL_FRACT) + divider / 2) / divider) % 2 ^ 32

theorem wrap64_eq_of_lt {n : ℕ} (h : n < 2 ^ 64) : wrap64 n = n :=
  Nat.mod_eq_of_lt h

/-- Claim C1 (counterexample): at crystal frequency 40 MHz, window
`W = 131072` and raw count 5, the source's `calibrate` returns 0 while the
value claimed by the spec — `((5 << 19) + divisor/2) / divisor` with
`divisor = 40 * 131072` — is 1; the quantity the source adds before the
division is `divisor/2 - 1`, not `divisor/2`. -/
theorem C1_counterexample :
    calibrate 40 5 131072 ≠ calibrate_specRounding 40 5 131072 := by decide

/-- Helper: closed form of `calibrate` when the divisor is at least 2 —
the `u64` computation neither wraps nor underflows and equals
`((raw << 19) + divisor/2 - 1) / divisor` truncated to 32 bits. -/
theorem calibrate_closed_form (mhz x W : ℕ) (hm : mhz < 2 ^ 32)
    (hx : x < 2 ^ 32) (hW : W < 2 ^ 32) (hd : 2 ≤ mhz * W) :
    calibrate mhz x W = (x * 2 ^ 19 + (mhz * W) / 2 - 1) / (mhz * W) % 2 ^ 32 := by
  have hdlt : mhz * W < 2 ^ 64 := by
    calc mhz * W ≤ (2 ^ 32 - 1) * (2 ^ 32 - 1) :=
          Nat.mul_le_mul (by omega) (by omega)
    _ < 2 ^ 64 := by norm_num
  have hxs : x <<< CAL_FRACT = x * 2 ^ 19 := by
    simp [Nat.shiftLeft_eq, CAL_FRACT]
  simp only [calibrate, sub64, wrap64, hxs]
  generalize hD : mhz * W = d at hdlt hd ⊢
  have hxlt : x * 2 ^ 19 < 2 ^ 51 := by omega
  rw [Nat.mod_eq_of_lt hdlt,
    Nat.mod_eq_of_lt (show x * 2 ^ 19 < 2 ^ 64 by omega),
    Nat.mod_eq_of_lt (show x * 2 ^ 19 + d / 2 < 2 ^ 64 by omega),
    Nat.mod_eq_of_lt (show (1 : ℕ) < 2 ^ 64 by norm_num),
    show x * 2 ^ 19 + d / 2 + (2 ^ 64 - 1) =
      (x * 2 ^ 19 + d / 2 - 1) + 2 ^ 64 by omega,
    Nat.add_mod_right, Nat.mod_eq_of_lt (show x * 2 ^ 19 + d / 2 - 1 < 2 ^ 64 by omega)]

/-- Claim C1 (amended): for every calibration target, window `W > 0` and
crystal frequency with `divisor = mhz * W ≥ 2` (every supported crystal is
24–40 MHz, so this always holds), `calibrate` returns
`((raw << 19) + divisor/2 - 1) / divisor` truncated to 32 bits: the
quantity added before the integer division is `divisor/2 - 1`, and no
`u64` wrapping occurs. -/
theorem C1_amended (mhz x W : ℕ) (hm : mhz < 2 ^ 32) (hx : x < 2 ^ 32)
    (hW : W < 2 ^ 32) (hd : 2 ≤ mhz * W) :
    calibrate mhz x W = (x * 2 ^ 19 + (mhz * W) / 2 - 1) / (mhz * W) % 2 ^ 32 :=
  calibrate_closed_form mhz x W hm hx hW hd

/-- Claim C1 (witness for the amended theorem). -/
theorem C1_amended_witness :
    calibrate 40 5 131072 =
      (5 * 2 ^ 19 + (40 * 131072) / 2 - 1) / (40 * 131072) % 2 ^ 32 :=
  C1_amended 40 5 131072 (by norm_num) (by norm_num) (by norm_num)
    (by norm_num)

/-- Claim C2 (counterexample): when the `dig_clk8m_d256_en` bit is already
set before the call and the (resolved) calibration target is the 8 MHz/256
clock, `calibrate_internal` returns with the bit cleared — the exit code
clears it unconditionally (rtc_cntl.rs:377-381) instead of restoring the
saved pre-call value; here shown on the timeout exit path (`ready = none`). -/
theorem C2_counterexample :
    ((calibrate_internal true .rtcSlowClockRtc .rtcCal8mD256 none
          { dig_xtal32k_en := false, dig_clk8m_d256_en := true }).1).dig_clk8m_d256_en ≠
      ({ dig_xtal32k_en := false, dig_clk8m_d256_en := true } :
          ClkConf).dig_clk8m_d256_en := by
  decide

/-- Claim C2 (amended): on every exit path (hardware-ready or timeout, the
oracle `ready`), for every chip family, slow-clock selection, target and
pre-call state, `calibrate_internal` restores the digital 32 kHz XTAL
enable bit to its pre-call value, while the 8 MHz/256 divided-clock enable
bit is left cleared whenever the resolved target is the 8 MHz/256 clock
(so it equals its pre-call value only when it was clear before the call)
and is left untouched for every other target. -/
theorem C2_amended (esp32 : Bool) (slow : RtcSlowClock) (calClk : RtcCalSel)
    (ready : Option ℕ) (s : ClkConf) :
    ((calibrate_internal esp32 slow calClk ready s).1).dig_xtal32k_en =
        s.dig_xtal32k_en ∧
      ((calibrate_internal esp32 slow calClk ready s).1).dig_clk8m_d256_en =
        (if resolveCalClk esp32 slow calClk = .rtcCal8mD256 then false
          else s.dig_clk8m_d256_en) := by
  cases ready <;>
    simp only [calibrate_internal] <;>
    split_ifs <;>
    simp_all

/-- Claim C3: for every window `W > 0`, `get_calibration_ratio` returns
`(raw_count << 19) / W` truncated to 32 bits, and when the counting
hardware reports exactly `k * W` target cycles the result is `k << 19`
(truncated to 32 bits, and exactly `k << 19` whenever `k` fits the 13
integer bits of the Q13.19 result). -/
theorem C3_calibration_ratio_exact (k W : ℕ) (hW : 0 < W)
    (hkW : k * W < 2 ^ 32) :
    get_calibration_ratio (k * W) W = k * 2 ^ 19 % 2 ^ 32 ∧
      (k < 2 ^ 13 → get_calibration_ratio (k * W) W = k * 2 ^ 19) ∧
      (∀ x : ℕ, x < 2 ^ 32 →
        get_calibration_ratio x W = x * 2 ^ 19 / W % 2 ^ 32) := by
  have hgen : ∀ x : ℕ, x < 2 ^ 32 →
      get_calibration_ratio x W = x * 2 ^ 19 / W % 2 ^ 32 := by
    intro x hx
    have hxs : x <<< CAL_FRACT = x * 2 ^ 19 := by
      simp [Nat.shiftLeft_eq, CAL_FRACT]
    have hxlt : x * 2 ^ 19 < 2 ^ 64 := by omega
    simp only [get_calibration_ratio, wrap64, hxs, Nat.mod_eq_of_lt hxlt]
  have hcancel : k * W * 2 ^ 19 / W = k * 2 ^ 19 := by
    rw [Nat.mul_right_comm, Nat.mul_div_cancel _ hW]
  refine ⟨?_, ?_, hgen⟩
  · rw [hgen _ hkW, hcancel]
  · intro hk
    rw [hgen _ hkW, hcancel, Nat.mod_eq_of_lt (by omega)]

/-- Claim C3 (witness): window 5, hardware count `3 * 5`. -/
theorem C3_calibration_ratio_witness :
    get_calibration_ratio (3 * 5) 5 = 3 * 2 ^ 19 % 2 ^ 32 ∧
      get_calibration_ratio (3 * 5) 5 = 3 * 2 ^ 19 ∧
      get_calibration_ratio 7 5 = 7 * 2 ^ 19 / 5 % 2 ^ 32 := by
  obtain ⟨h1, h2, h3⟩ :=
    C3_calibration_ratio_exact 3 5 (by norm_num) (by norm_num)
  exact ⟨h1, h2 (by norm_num), h3 7 (by norm_num)⟩

/-- Claim C4: for every window `W > 0` and every crystal frequency (the
divisor `mhz * W` is at least 2 for every crystal the driver recognizes,
all of which are 24–40 MHz), a raw calibration count of 0 — the timeout
sentinel — makes `get_calibration_ratio` return 0 and `calibrate`
return 0. -/
theorem C4_zero_sentinel (mhz W : ℕ) (_hW : 0 < W) (hm : mhz < 2 ^ 32)
    (hWlt : W < 2 ^ 32) (hd : 2 ≤ mhz * W) :
    get_calibration_ratio 0 W = 0 ∧ calibrate mhz 0 W = 0 := by
  constructor
  · simp [get_calibration_ratio, wrap64, Nat.shiftLeft_eq]
  · rw [calibrate_closed_form mhz 0 W hm (by norm_num) hWlt hd]
    have : (0 * 2 ^ 19 + mhz * W / 2 - 1) / (mhz * W) = 0 := by
      apply Nat.div_eq_of_lt
      omega
    rw [this]
    norm_num

/-- Claim C4 (witness): 40 MHz crystal, window 1024. -/
theorem C4_zero_sentinel_witness :
    get_calibration_ratio 0 1024 = 0 ∧ calibrate 40 0 1024 = 0 :=
  C4_zero_sentinel 40 1024 (by norm_num) (by norm_num) (by norm_num)
    (by norm_num)

/-!
Generic counter-timer driver (`timer.rs`).

A timer unit's registers relevant to the generic `Timer` driver: the
counter/alarm enable and interrupt-raw bits of `tXconfig` /
`int_raw_timers`, the counter, the two 32-bit alarm compare registers and
the 16-bit prescale `divider` field.  `Timer<T>` drives any unit through
the `Instance` trait; both concrete units (`Timer0`, `Timer1`) implement
every method with identical logic over their own register set.
-/

/-- `Timer0::divider` (timer.rs:278-292): decode of the 16-bit hardware
prescale field of `t0config`. -/
def Timer0_divider (bits : ℕ) : ℕ :=
  match bits with
  | 0 => 65536
  | 1 => 2
  | 2 => 2
  | n => n

/-- `Timer1::divider` (timer.rs:415-429): decode of the 16-bit hardware
prescale field of `t1config`; the source duplicates `Timer0::divider`
verbatim over the `t1` register set. -/
def Timer1_divider (bits : ℕ) : ℕ :=
  match bits with
  | 0 => 65536
  | 1 => 2
  | 2 => 2
  | n => n

/-- `Timer0::load_alarm_value` (timer.rs:225-239): the value written into
the `(t0alarmhi, t0alarmlo)` register pair for a `u64` input: the input is
masked with `0x3F_FFFF_FFFF_FFFF` and split at bit 32. -/
def Timer0_load_alarm_value (value : ℕ) : ℕ × ℕ :=
  let value := (value % 2 ^ 64) &&& 0x3FFFFFFFFFFFFF
  (value >>> 32, value &&& 0xFFFFFFFF)

/-- `Timer1::load_alarm_value` (timer.rs:362-376): identical to
`Timer0::load_alarm_value` over the `(t1alarmhi, t1alarmlo)` pair. -/
def Timer1_load_alarm_value (value : ℕ) : ℕ × ℕ :=
  let value := (value % 2 ^ 64) &&& 0x3FFFFFFFFFFFFF
  (value >>> 32, value &&& 0xFFFFFFFF)

/-- The registers of one physical timer unit as seen through the `Instance`
trait methods used by the generic `Timer` driver (timer.rs:136-164). -/
structure TimerRegs where
  counter_en : Bool
  alarm_en : Bool
  int_raw : Bool
  autoreload : Bool
  increase : Bool
  counter : ℕ
  alarm_hi : ℕ
  alarm_lo : ℕ
  divider_field : ℕ
  deriving DecidableEq

/-- `CountDown::start` for `Timer<T>` (timer.rs:460-479): stop counter and
alarm, reset the counter to zero, load the computed tick count as the
alarm compare value, count upward with auto-reload, then re-enable counter
and alarm.  `ticks` is the value produced by `timeout_to_ticks`
(timer.rs:438-452); that conversion goes through `f64` arithmetic and is
taken here as an abstract input.  Note the interrupt-raw flag is not
touched. -/
def timerStart (ticks : ℕ) (s : TimerRegs) : TimerRegs :=
  let s := { s with counter_en := false }
  let s := { s with alarm_en := false }
  let s := { s with counter := 0 }
  let alarm := Timer0_load_alarm_value ticks
  let s := { s with alarm_hi := alarm.1, alarm_lo := alarm.2 }
  let s := { s with increase := true }
  let s := { s with autoreload := true }
  let s := { s with counter_en := true }
  { s with alarm_en := true }

/-- Outcome of `CountDown::wait`: the `panic!` abort, success, or the
`nb::Error::WouldBlock` condition. -/
inductive WaitOutcome
  | panicked
  | ok
  | wouldBlock
  deriving DecidableEq

/-- `CountDown::wait` for `Timer<T>` (timer.rs:481-494): panics when the
counter is not active; otherwise, when the interrupt-raw flag is set,
clears it, re-arms the alarm and succeeds; else reports would-block. -/
def timerWait (s : TimerRegs) : WaitOutcome × TimerRegs :=
  if ¬s.counter_en then (.panicked, s)
  else if s.int_raw then (.ok, { s with int_raw := false, alarm_en := true })
  else (.wouldBlock, s)

/-- `Error` (timer.rs:19-23). -/
inductive TimerError
  | TimerActive
  | TimerInactive
  | AlarmInactive
  deriving DecidableEq

/-- `Cancel::cancel` for `Timer<T>` (timer.rs:503-513): `TimerInactive`
when the counter is not running, else `AlarmInactive` when the alarm is
not armed, else stop the counter and succeed. -/
def timerCancel (s : TimerRegs) : Except TimerError Unit × TimerRegs :=
  if ¬s.counter_en then (.error .TimerInactive, s)
  else if ¬s.alarm_en then (.error .AlarmInactive, s)
  else (.ok (), { s with counter_en := false })

/-- Power-on reset state of a timer unit: counter stopped, alarm disabled,
no pending interrupt. -/
def timerResetState : TimerRegs :=
  { counter_en := false, alarm_en := false, int_raw := false
    autoreload := false, increase := false, counter := 0
    alarm_hi := 0, alarm_lo := 0, divider_field := 0 }

/-- Claim C5: `divider()` is a total, exact mapping of the prescale field
on both timer units: 0 ↦ 65536, 1 and 2 ↦ 2, every other field value
n ↦ n. -/
theorem C5_divider_mapping (n : ℕ) :
    Timer0_divider n = (if n = 0 then 65536 else if n = 1 ∨ n = 2 then 2 else n) ∧
      Timer1_divider n = (if n = 0 then 65536 else if n = 1 ∨ n = 2 then 2 else n) := by
  rcases n with _ | _ | _ | n <;> simp [Timer0_divider, Timer1_divider]

/-- Claim C7 (counterexample): `wait()` called immediately after `start`
with no elapsed time does not would-block when the interrupt-raw flag was
already pending before `start` — `start` (timer.rs:460-479) never clears
the flag, so `wait` succeeds at once. -/
theorem C7_counterexample :
    (timerWait (timerStart 40000
        { counter_en := true, alarm_en := true, int_raw := true
          autoreload := true, increase := true, counter := 123
          alarm_hi := 0, alarm_lo := 0, divider_field := 2 })).1 =
      WaitOutcome.ok := by
  decide

/-- Claim C7 (amended): for every timer state, `wait()` panics exactly
when the counter is not active; with the counter active it would-blocks
when the interrupt flag is clear (leaving the state unchanged), and when
the flag is set it clears the flag, re-arms the alarm, succeeds, and a
second `wait` without a further alarm would-blocks (success happens
exactly once per elapsed period).  Immediately after `start` the counter
is active and `wait` would-blocks exactly when the interrupt flag was
clear before `start` (`start` does not clear a pending flag). -/
theorem C7_amended (s : TimerRegs) (ticks : ℕ) :
    (timerWait (timerStart ticks s)).1 =
        (if s.int_raw then WaitOutcome.ok else WaitOutcome.wouldBlock) ∧
      (s.counter_en = false → (timerWait s).1 = WaitOutcome.panicked) ∧
      (s.counter_en = true → s.int_raw = false →
        timerWait s = (WaitOutcome.wouldBlock, s)) ∧
      (s.counter_en = true → s.int_raw = true →
        (timerWait s).1 = WaitOutcome.ok ∧
          ((timerWait s).2).int_raw = false ∧
          ((timerWait s).2).alarm_en = true ∧
          (timerWait ((timerWait s).2)).1 = WaitOutcome.wouldBlock) := by
  rcases s with ⟨ce, ae, ir, ar, inc, c, ah, al, df⟩
  cases ce <;> cases ir <;> simp [timerStart, timerWait]

/-- Claim C7 (witness for the amended theorem): on the reset state `wait`
panics; with counter active and a pending flag it succeeds and the next
`wait` would-blocks. -/
theorem C7_amended_witness :
    (timerWait timerResetState).1 = WaitOutcome.panicked ∧
      (timerWait { timerResetState with counter_en := true, int_raw := true }).1 =
        WaitOutcome.ok ∧
      (timerWait ((timerWait
          { timerResetState with counter_en := true, int_raw := true }).2)).1 =
        WaitOutcome.wouldBlock := by
  refine ⟨(C7_amended timerResetState 0).2.1 rfl, ?_, ?_⟩
  · exact ((C7_amended { timerResetState with counter_en := true, int_raw := true }
      0).2.2.2 rfl rfl).1
  · exact ((C7_amended { timerResetState with counter_en := true, int_raw := true }
      0).2.2.2 rfl rfl).2.2.2

/-- Claim C8: for every timer state, `cancel()` returns `TimerInactive`
when the counter is not running — in particular on the power-on state
before any `start`, and again right after a successful `cancel` (never
silent success) — returns `AlarmInactive` when the counter runs with the
alarm unarmed, and otherwise stops the counter and succeeds. -/
theorem C8_cancel (s : TimerRegs) :
    (s.counter_en = false →
        timerCancel s = (.error TimerError.TimerInactive, s)) ∧
      (s.counter_en = true → s.alarm_en = false →
        timerCancel s = (.error TimerError.AlarmInactive, s)) ∧
      (s.counter_en = true → s.alarm_en = true →
        timerCancel s = (.ok (), { s with counter_en := false }) ∧
          (timerCancel ((timerCancel s).2)).1 =
            .error TimerError.TimerInactive) ∧
      (timerCancel timerResetState).1 = .error TimerError.TimerInactive := by
  rcases s with ⟨ce, ae, ir, ar, inc, c, ah, al, df⟩
  cases ce <;> cases ae <;> simp [timerCancel, timerResetState]

/-- Claim C8 (witness): cancel fails with `TimerInactive` on the reset
state, and after a successful cancel a second cancel fails with
`TimerInactive`. -/
theorem C8_cancel_witness :
    timerCancel timerResetState =
        (.error TimerError.TimerInactive, timerResetState) ∧
      (timerCancel ((timerCancel
          { timerResetState with counter_en := true, alarm_en := true }).2)).1 =
        .error TimerError.TimerInactive := by
  refine ⟨(C8_cancel timerResetState).1 rfl, ?_⟩
  exact (((C8_cancel
    { timerResetState with counter_en := true, alarm_en := true }).2.2.1
      rfl rfl)).2

/-- Claim C10 (counterexample): the alarm comparator mask is
`0x3F_FFFF_FFFF_FFFF = 2^54 - 1` (timer.rs:226), not 56 bits: loading
`2^54` writes `(0, 0)` into `(alarm_hi, alarm_lo)`, while keeping the low
56 bits would write `(2^22, 0)`. -/
theorem C10_counterexample :
    Timer0_load_alarm_value (2 ^ 54) ≠
      (2 ^ 54 % 2 ^ 56 / 2 ^ 32, 2 ^ 54 % 2 ^ 56 % 2 ^ 32) := by
  decide

/-- Claim C10 (amended): the alarm comparator holds 54 bits: for every
64-bit value `v`, `load_alarm_value(v)` writes exactly the low 54 bits of
`v` (`v mod 2^54`) into the alarm compare register pair — `alarm_hi`
receives `(v mod 2^54) / 2^32`, `alarm_lo` receives `(v mod 2^54) mod
2^32`, so the pair encodes `v mod 2^54`, discarding bits 54 and above —
identically in both timer units. -/
theorem C10_amended (v : ℕ) (hv : v < 2 ^ 64) :
    Timer0_load_alarm_value v = (v % 2 ^ 54 / 2 ^ 32, v % 2 ^ 54 % 2 ^ 32) ∧
      Timer1_load_alarm_value v = (v % 2 ^ 54 / 2 ^ 32, v % 2 ^ 54 % 2 ^ 32) ∧
      (Timer0_load_alarm_value v).1 * 2 ^ 32 + (Timer0_load_alarm_value v).2 =
        v % 2 ^ 54 := by
  have hmask : (v % 2 ^ 64) &&& 0x3FFFFFFFFFFFFF = v % 2 ^ 54 := by
    rw [Nat.mod_eq_of_lt hv]
    exact Nat.and_pow_two_sub_one_eq_mod v 54
  have hlow : v % 2 ^ 54 &&& 0xFFFFFFFF = v % 2 ^ 54 % 2 ^ 32 :=
    Nat.and_pow_two_sub_one_eq_mod _ 32
  have hsr : (v % 2 ^ 54) >>> 32 = v % 2 ^ 54 / 2 ^ 32 := by omega
  have h0 : Timer0_load_alarm_value v =
      (v % 2 ^ 54 / 2 ^ 32, v % 2 ^ 54 % 2 ^ 32) := by
    simp only [Timer0_load_alarm_value, hmask, hlow, hsr]
  have h1 : Timer1_load_alarm_value v =
      (v % 2 ^ 54 / 2 ^ 32, v % 2 ^ 54 % 2 ^ 32) := by
    simp only [Timer1_load_alarm_value, hmask, hlow, hsr]
  refine ⟨h0, h1, ?_⟩
  rw [h0]
  omega

/-- Claim C10 (witness for the amended theorem). -/
theorem C10_amended_witness :
    Timer0_load_alarm_value (2 ^ 55 + 12345) =
      ((2 ^ 55 + 12345) % 2 ^ 54 / 2 ^ 32, (2 ^ 55 + 12345) % 2 ^ 54 % 2 ^ 32) :=
  (C10_amended (2 ^ 55 + 12345) (by norm_num)).1

/-!
Per-timer-group watchdog (`timer.rs:519-642`).
-/

/-- The fields of the timer-group watchdog configuration registers
(`wdtconfig0`, `wdtconfig1`, `wdtconfig2`) written by the `Wdt` driver. -/
structure WdtRegs where
  wdt_en : Bool
  stg0 : ℕ
  stg1 : ℕ
  stg2 : ℕ
  stg3 : ℕ
  stg0_hold : ℕ
  clk_prescale : ℕ
  cpu_reset_length : ℕ
  sys_reset_length : ℕ
  conf_update_en : Bool
  deriving DecidableEq

/-- `Wdt::set_timeout` (timer.rs:567-609).  The tick conversion is
`(timeout.to_nanos() * 10 / 125) as u32` in `u64` arithmetic;
`to_nanos` of a `MicrosDurationU64` (the external `fugit` crate, modelled
from the spec's "converts microseconds directly": nanoseconds =
microseconds × 1000 as a `u64`).  The register writes: `wdtconfig1` gets
prescale 1, `wdtconfig2` gets the stage-0 hold value, `wdtconfig0` is
written whole with enable set, stage 0 action 3 (reset-system), CPU and
system reset pulse lengths 1 and stages 1–3 off (a whole-register write
clears `conf_update_en`); on the ESP32-C3 variant only, a configuration
update pulse is then set (timer.rs:601-604). -/
def wdt_set_timeout (c3 : Bool) (timeout_micros : ℕ) (s : WdtRegs) : WdtRegs :=
  let timeout_raw := wrap64 (wrap64 (timeout_micros * 1000) * 10) / 125 % 2 ^ 32
  let s := { s with clk_prescale := 1 }
  let s := { s with stg0_hold := timeout_raw }
  let s :=
    { s with wdt_en := true, stg0 := 3, cpu_reset_length := 1
             sys_reset_length := 1, stg1 := 0, stg2 := 0, stg3 := 0
             conf_update_en := false }
  if c3 then { s with conf_update_en := true } else s

/-- `WatchdogEnable::start` for `Wdt` (timer.rs:621-633): delegates to
`set_timeout`. -/
def wdt_start (c3 : Bool) (timeout_micros : ℕ) (s : WdtRegs) : WdtRegs :=
  wdt_set_timeout c3 timeout_micros s

/-- Claim C9: for every timeout duration (whose value in nanoseconds times
10 fits a `u64`, i.e. every duration below about 58 years), the
timer-group watchdog `start(period)` writes a stage-0 hold value of
exactly `timeout_ns * 10 / 125` truncated to 32 bits, writes the fixed
single-stage configuration — stage 0 action 3 (reset-system, a
reset-class action) with stages 1–3 off — and sets the enable bit. -/
theorem C9_wdt_start_config (c3 : Bool) (us : ℕ) (s : WdtRegs)
    (h : us * 10000 < 2 ^ 64) :
    (wdt_start c3 us s).stg0_hold = us * 1000 * 10 / 125 % 2 ^ 32 ∧
      (wdt_start c3 us s).wdt_en = true ∧
      (wdt_start c3 us s).stg0 = 3 ∧
      (wdt_start c3 us s).stg1 = 0 ∧
      (wdt_start c3 us s).stg2 = 0 ∧
      (wdt_start c3 us s).stg3 = 0 := by
  have h1 : us * 1000 % 18446744073709551616 = us * 1000 :=
    Nat.mod_eq_of_lt (by omega)
  have h2 : us * 1000 * 10 % 18446744073709551616 = us * 1000 * 10 :=
    Nat.mod_eq_of_lt (by omega)
  cases c3 <;> simp [wdt_start, wdt_set_timeout, wrap64, h1, h2]

/-- Claim C9 (witness): a 1000 µs period yields a hold value of
`1_000_000 ns * 10 / 125 = 80000` ticks. -/
theorem C9_wdt_start_config_witness :
    (wdt_start false 1000
        { wdt_en := false, stg0 := 0, stg1 := 0, stg2 := 0, stg3 := 0
          stg0_hold := 0, clk_prescale := 0, cpu_reset_length := 0
          sys_reset_length := 0, conf_update_en := false }).stg0_hold =
      1000 * 1000 * 10 / 125 % 2 ^ 32 :=
  (C9_wdt_start_config false 1000
    { wdt_en := false, stg0 := 0, stg1 := 0, stg2 := 0, stg3 := 0
      stg0_hold := 0, clk_prescale := 0, cpu_reset_length := 0
      sys_reset_length := 0, conf_update_en := false } (by norm_num)).1

/-!
Register write-protection protocol (claim C6).

Every watchdog operation is turned into the sequence of hardware register
writes it performs, keeping for each write whether it is a write of the
write-protection key register (`wdtwprotect` / `swd_wprotect`, with the
value written) or a write to a protected register.  The order of events is
read off the source bodies.
-/

/-- The three write-protected watchdog peripherals: the main RTC watchdog,
the super watchdog, and a timer-group watchdog. -/
inductive Periph
  | rwdt
  | swd
  | timg
  deriving DecidableEq

/-- Protected registers written between unlock and lock by the watchdog
operations. -/
inductive ProtReg
  | wdtconfig0
  | wdtconfig1
  | wdtconfig2
  | wdtfeed
  | int_ena
  | int_clr
  | swd_conf
  deriving DecidableEq

/-- One hardware register write: either a write of a peripheral's
write-protection key register with a given value, or a write to one of
that peripheral's protected registers. -/
inductive RegWrite
  | wprot (p : Periph) (key : ℕ)
  | protWrite (p : Periph) (r : ProtReg)
  deriving DecidableEq

/-- The unlock key of each peripheral: `0x50D8_3AA1` for the main RTC
watchdog (`Rwdt::set_write_protection`, rtc_cntl.rs:571-577) and the
timer-group watchdogs (timer.rs:538-540, 556-558, 572-574), `0x8F1D_312A`
for the super watchdog (`Swd::set_write_protection`, rtc_cntl.rs:663-671). -/
def unlockKey : Periph → ℕ
  | .rwdt => 0x50D83AA1
  | .swd => 0x8F1D312A
  | .timg => 0x50D83AA1

/-- The operations that mutate write-protected watchdog registers. -/
inductive WdtOp
  | rwdtListen
  | rwdtUnlisten
  | rwdtClearInterrupt
  | rwdtStart
  | rwdtFeed
  | rwdtDisable
  | swdDisable
  | wdtSetEnabled (enabled : Bool)
  | wdtFeed
  | wdtSetTimeout
  deriving DecidableEq

/-- The register-write trace of each operation, read off the source:
`Rwdt::listen` (rtc_cntl.rs:482-508), `Rwdt::unlisten` (510-536),
`Rwdt::clear_interrupt` (538-555), `Rwdt::start` (597-637), `Rwdt::feed`
(641-649), `Rwdt::disable` (581-591), `Swd::disable` (676-684),
`Wdt::set_wdt_enabled` (timer.rs:535-551), `Wdt::feed` (553-565),
`Wdt::set_timeout` (567-609, with the ESP32-C3-only configuration-update
write). -/
def opTrace (c3 : Bool) : WdtOp → List RegWrite
  | .rwdtListen =>
    [.wprot .rwdt 0x50D83AA1, .protWrite .rwdt .wdtconfig0,
      .protWrite .rwdt .int_ena, .wprot .rwdt 0]
  | .rwdtUnlisten =>
    [.wprot .rwdt 0x50D83AA1, .protWrite .rwdt .wdtconfig0,
      .protWrite .rwdt .int_ena, .wprot .rwdt 0]
  | .rwdtClearInterrupt =>
    [.wprot .rwdt 0x50D83AA1, .protWrite .rwdt .int_clr, .wprot .rwdt 0]
  | .rwdtStart =>
    [.wprot .rwdt 0x50D83AA1, .protWrite .rwdt .wdtconfig1,
      .protWrite .rwdt .wdtconfig0, .wprot .rwdt 0]
  | .rwdtFeed =>
    [.wprot .rwdt 0x50D83AA1, .protWrite .rwdt .wdtfeed, .wprot .rwdt 0]
  | .rwdtDisable =>
    [.wprot .rwdt 0x50D83AA1, .protWrite .rwdt .wdtconfig0, .wprot .rwdt 0]
  | .swdDisable =>
    [.wprot .swd 0x8F1D312A, .protWrite .swd .swd_conf, .wprot .swd 0]
  | .wdtSetEnabled _ =>
    [.wprot .timg 0x50D83AA1, .protWrite .timg .wdtconfig0, .wprot .timg 0]
  | .wdtFeed =>
    [.wprot .timg 0x50D83AA1, .protWrite .timg .wdtfeed, .wprot .timg 0]
  | .wdtSetTimeout =>
    [.wprot .timg 0x50D83AA1, .protWrite .timg .wdtconfig1,
        .protWrite .timg .wdtconfig2, .protWrite .timg .wdtconfig0] ++
      (if c3 then [.protWrite .timg .wdtconfig0] else []) ++
      [.wprot .timg 0]

/-- The trace of a sequence of operations run back to back. -/
def seqTrace (c3 : Bool) : List WdtOp → List RegWrite
  | [] => []
  | op :: rest => opTrace c3 op ++ seqTrace c3 rest

/-- Checker of the write-protection protocol for one peripheral `p` over a
trace: starting from a lock state, a locked peripheral accepts only a
write of its own unlock key (any other key value, or a protected write
while locked, violates the protocol), and an unlocked peripheral accepts
protected writes until the single lock write of value 0 (a second unlock
before that lock violates the protocol).  Writes addressing other
peripherals are ignored.  Returns the final lock state, or `none` on a
violation. -/
def runProtect (p : Periph) : Bool → List RegWrite → Option Bool
  | locked, [] => some locked
  | true, .wprot q v :: rest =>
    if q = p then
      if v = unlockKey p then runProtect p false rest else none
    else runProtect p true rest
  | true, .protWrite q _ :: rest =>
    if q = p then none else runProtect p true rest
  | false, .wprot q v :: rest =>
    if q = p then
      if v = 0 then runProtect p true rest else none
    else runProtect p false rest
  | false, .protWrite _ _ :: rest => runProtect p false rest

theorem runProtect_append (p : Periph) (s : Bool) (a b : List RegWrite) :
    runProtect p s (a ++ b) =
      (runProtect p s a).bind fun t => runProtect p t b := by
  induction a generalizing s with
  | nil => cases s <;> simp [runProtect]
  | cons e rest ih =>
    cases e <;> cases s <;> simp only [List.cons_append, runProtect] <;>
      first
        | (split_ifs <;> simp [ih])
        | simp [ih]

theorem opTrace_bracketed (c3 : Bool) (op : WdtOp) (p : Periph) :
    runProtect p true (opTrace c3 op) = some true := by
  cases op <;> cases p <;> cases c3 <;> rfl

/-- Claim C6: every protected-register watchdog operation (`Rwdt` listen,
unlisten, clear_interrupt, start, feed, disable; `Swd` disable;
timer-group `Wdt` enable/disable, feed, set_timeout) brackets its
protected writes between a write of its peripheral's unlock key and a
single lock write of 0, and over any sequence of such operations every
unlock is followed by exactly one matching lock before the next unlock of
the same peripheral; the keys are `0x50D8_3AA1` for the main and
timer-group watchdogs and `0x8F1D_312A` for the super watchdog. -/
theorem C6_write_protect_bracketing (c3 : Bool) (ops : List WdtOp)
    (p : Periph) :
    runProtect p true (seqTrace c3 ops) = some true ∧
      unlockKey .rwdt = 0x50D83AA1 ∧
      unlockKey .timg = 0x50D83AA1 ∧
      unlockKey .swd = 0x8F1D312A := by
  refine ⟨?_, rfl, rfl, rfl⟩
  induction ops with
  | nil => rfl
  | cons op rest ih =>
    rw [seqTrace, runProtect_append, opTrace_bracketed]
    exact ih

end EspHal
